import Mathlib

/-!
Verification of the GoIO wrapper layer of `pymodaq_plugins_vernier`.

Shallow embedding of:
  * `src/pymodaq_plugins_vernier/hardware/goio/goio_wrapper_server32.py`
    (class `GoIOWrapper32`, enums, ctypes structures),
  * `src/pymodaq_plugins_vernier/hardware/goio/goio_wrapper.py`
    (class `GoIOWrapper`, in particular `send_command`),
  * `src/pymodaq_plugins_vernier/hardware/goio/goio_wrapper_client64.py`
    (class `GoIOWrapper64`, the 64-bit side of the process bridge).

The vendor GoIO_DLL is an external binary: it is modelled as an abstract
interface `Lib` (one field per entry point the wrappers invoke, each a
state-passing function) together with one concrete instance `goioDll`
whose behaviour is modelled from the spec (sensor handles valid between
open and close, a per-handle vendor-side measurement queue, non-zero
return codes on failure).  The wrapper methods themselves are translated
line by line from the Python source; each returns its Python result as
`Except PyError α` (an exception raised is `Except.error`), the DLL state
after the call, and the trace of DLL entry points invoked with the exact
arguments passed, so that theorems can speak about what crosses the
foreign-function boundary.
-/

/-- A raised Python exception: `GoIOError` is the wrapper's single error
class; `ValueError` comes from enum coercions, `TypeError` from misuse of
`ctypes.sizeof`. -/
inductive PyError
  | goIOError (msg : String)
  | valueError (msg : String)
  | typeError (msg : String)
deriving DecidableEq, Repr

/-- `VendorID` enum of `goio_wrapper_server32.py` (single member). -/
inductive VendorID
  | Vernier
deriving DecidableEq, Repr

def VendorID.val : VendorID → Nat
  | .Vernier => 0x08F7

def VendorID.fromVal : Nat → Option VendorID
  | 0x08F7 => some .Vernier
  | _ => none

def VendorID.all : List VendorID := [.Vernier]

/-- `ProductID` enum of `goio_wrapper_server32.py`. -/
inductive ProductID
  | Default
  | GoTemp
  | GoLink
  | GoMotion
  | LabQuest
deriving DecidableEq, Repr

def ProductID.val : ProductID → Nat
  | .Default => 0x0001
  | .GoTemp => 0x0002
  | .GoLink => 0x0003
  | .GoMotion => 0x0004
  | .LabQuest => 0x0005

def ProductID.fromVal : Nat → Option ProductID
  | 0x0001 => some .Default
  | 0x0002 => some .GoTemp
  | 0x0003 => some .GoLink
  | 0x0004 => some .GoMotion
  | 0x0005 => some .LabQuest
  | _ => none

def ProductID.all : List ProductID := [.Default, .GoTemp, .GoLink, .GoMotion, .LabQuest]

/-- The `(name, member)` pairs of `ProductID`, in declaration order, as used
by `enum_checker` (Python `Enum.__members__`). -/
def ProductID.members : List (String × ProductID) :=
  [("Default", .Default), ("GoTemp", .GoTemp), ("GoLink", .GoLink),
   ("GoMotion", .GoMotion), ("LabQuest", .LabQuest)]

/-- `SensorCommand` enum of `goio_wrapper_server32.py`. -/
inductive SensorCommand
  | NONE
  | GET_STATUS
  | START_MEASUREMENTS
  | STOP_MEASUREMENTS
  | INIT
  | SET_MEASUREMENT_PERIOD
  | GET_MEASUREMENT_PERIOD
  | SET_LED_STATE
  | GET_LED_STATE
  | GET_SERIAL_NUMBER
  | GET_SENSOR_ID
  | SET_ANALOG_INPUT_CHANNEL
  | GET_ANALOG_INPUT_CHANNEL
deriving DecidableEq, Repr

def SensorCommand.val : SensorCommand → Nat
  | .NONE => 0
  | .GET_STATUS => 0x10
  | .START_MEASUREMENTS => 0x18
  | .STOP_MEASUREMENTS => 0x19
  | .INIT => 0x1A
  | .SET_MEASUREMENT_PERIOD => 0x1B
  | .GET_MEASUREMENT_PERIOD => 0x1C
  | .SET_LED_STATE => 0x1D
  | .GET_LED_STATE => 0x1E
  | .GET_SERIAL_NUMBER => 0x20
  | .GET_SENSOR_ID => 0x28
  | .SET_ANALOG_INPUT_CHANNEL => 0x29
  | .GET_ANALOG_INPUT_CHANNEL => 0x2A

def SensorCommand.fromVal : Nat → Option SensorCommand
  | 0 => some .NONE
  | 0x10 => some .GET_STATUS
  | 0x18 => some .START_MEASUREMENTS
  | 0x19 => some .STOP_MEASUREMENTS
  | 0x1A => some .INIT
  | 0x1B => some .SET_MEASUREMENT_PERIOD
  | 0x1C => some .GET_MEASUREMENT_PERIOD
  | 0x1D => some .SET_LED_STATE
  | 0x1E => some .GET_LED_STATE
  | 0x20 => some .GET_SERIAL_NUMBER
  | 0x28 => some .GET_SENSOR_ID
  | 0x29 => some .SET_ANALOG_INPUT_CHANNEL
  | 0x2A => some .GET_ANALOG_INPUT_CHANNEL
  | _ => none

/-- Python's `member.name` attribute. -/
def SensorCommand.name : SensorCommand → String
  | .NONE => "NONE"
  | .GET_STATUS => "GET_STATUS"
  | .START_MEASUREMENTS => "START_MEASUREMENTS"
  | .STOP_MEASUREMENTS => "STOP_MEASUREMENTS"
  | .INIT => "INIT"
  | .SET_MEASUREMENT_PERIOD => "SET_MEASUREMENT_PERIOD"
  | .GET_MEASUREMENT_PERIOD => "GET_MEASUREMENT_PERIOD"
  | .SET_LED_STATE => "SET_LED_STATE"
  | .GET_LED_STATE => "GET_LED_STATE"
  | .GET_SERIAL_NUMBER => "GET_SERIAL_NUMBER"
  | .GET_SENSOR_ID => "GET_SENSOR_ID"
  | .SET_ANALOG_INPUT_CHANNEL => "SET_ANALOG_INPUT_CHANNEL"
  | .GET_ANALOG_INPUT_CHANNEL => "GET_ANALOG_INPUT_CHANNEL"

def SensorCommand.all : List SensorCommand :=
  [.NONE, .GET_STATUS, .START_MEASUREMENTS, .STOP_MEASUREMENTS, .INIT,
   .SET_MEASUREMENT_PERIOD, .GET_MEASUREMENT_PERIOD, .SET_LED_STATE,
   .GET_LED_STATE, .GET_SERIAL_NUMBER, .GET_SENSOR_ID,
   .SET_ANALOG_INPUT_CHANNEL, .GET_ANALOG_INPUT_CHANNEL]

def SensorCommand.members : List (String × SensorCommand) :=
  SensorCommand.all.map (fun c => (c.name, c))

/-- `SensorStatus` enum of `goio_wrapper_server32.py`. -/
inductive SensorStatus
  | SUCCESS
  | NOT_READY_FOR_NEW_CMD
  | CMD_NOT_SUPPORTED
  | INTERNAL_ERROR1
  | INTERNAL_ERROR2
  | ERROR_CANNOT_CHANGE_PERIOD_WHILE_COLLECTING
  | ERROR_CANNOT_READ_NV_MEM_BLK_WHILE_COLLECTING_FAST
  | ERROR_INVALID_PARAMETER
  | ERROR_CANNOT_WRITE_FLASH_WHILE_COLLECTING
  | ERROR_CANNOT_WRITE_FLASH_WHILE_HOST_FIFO_BUSY
  | ERROR_OP_BLOCKED_WHILE_COLLECTING
  | ERROR_CALCULATOR_CANNOT_MEASURE_WITH_NO_BATTERIES
  | ERROR_SLAVE_POWERUP_INIT
  | ERROR_SLAVE_POWERRESTORE_INIT
  | ERROR_COMMUNICATION
deriving DecidableEq, Repr

def SensorStatus.val : SensorStatus → Nat
  | .SUCCESS => 0
  | .NOT_READY_FOR_NEW_CMD => 0x30
  | .CMD_NOT_SUPPORTED => 0x31
  | .INTERNAL_ERROR1 => 0x32
  | .INTERNAL_ERROR2 => 0x33
  | .ERROR_CANNOT_CHANGE_PERIOD_WHILE_COLLECTING => 0x34
  | .ERROR_CANNOT_READ_NV_MEM_BLK_WHILE_COLLECTING_FAST => 0x35
  | .ERROR_INVALID_PARAMETER => 0x36
  | .ERROR_CANNOT_WRITE_FLASH_WHILE_COLLECTING => 0x37
  | .ERROR_CANNOT_WRITE_FLASH_WHILE_HOST_FIFO_BUSY => 0x38
  | .ERROR_OP_BLOCKED_WHILE_COLLECTING => 0x39
  | .ERROR_CALCULATOR_CANNOT_MEASURE_WITH_NO_BATTERIES => 0x3A
  | .ERROR_SLAVE_POWERUP_INIT => 0x40
  | .ERROR_SLAVE_POWERRESTORE_INIT => 0x41
  | .ERROR_COMMUNICATION => 0xF0

def SensorStatus.fromVal : Nat → Option SensorStatus
  | 0 => some .SUCCESS
  | 0x30 => some .NOT_READY_FOR_NEW_CMD
  | 0x31 => some .CMD_NOT_SUPPORTED
  | 0x32 => some .INTERNAL_ERROR1
  | 0x33 => some .INTERNAL_ERROR2
  | 0x34 => some .ERROR_CANNOT_CHANGE_PERIOD_WHILE_COLLECTING
  | 0x35 => some .ERROR_CANNOT_READ_NV_MEM_BLK_WHILE_COLLECTING_FAST
  | 0x36 => some .ERROR_INVALID_PARAMETER
  | 0x37 => some .ERROR_CANNOT_WRITE_FLASH_WHILE_COLLECTING
  | 0x38 => some .ERROR_CANNOT_WRITE_FLASH_WHILE_HOST_FIFO_BUSY
  | 0x39 => some .ERROR_OP_BLOCKED_WHILE_COLLECTING
  | 0x3A => some .ERROR_CALCULATOR_CANNOT_MEASURE_WITH_NO_BATTERIES
  | 0x40 => some .ERROR_SLAVE_POWERUP_INIT
  | 0x41 => some .ERROR_SLAVE_POWERRESTORE_INIT
  | 0xF0 => some .ERROR_COMMUNICATION
  | _ => none

def SensorStatus.all : List SensorStatus :=
  [.SUCCESS, .NOT_READY_FOR_NEW_CMD, .CMD_NOT_SUPPORTED, .INTERNAL_ERROR1,
   .INTERNAL_ERROR2, .ERROR_CANNOT_CHANGE_PERIOD_WHILE_COLLECTING,
   .ERROR_CANNOT_READ_NV_MEM_BLK_WHILE_COLLECTING_FAST,
   .ERROR_INVALID_PARAMETER, .ERROR_CANNOT_WRITE_FLASH_WHILE_COLLECTING,
   .ERROR_CANNOT_WRITE_FLASH_WHILE_HOST_FIFO_BUSY,
   .ERROR_OP_BLOCKED_WHILE_COLLECTING,
   .ERROR_CALCULATOR_CANNOT_MEASURE_WITH_NO_BATTERIES,
   .ERROR_SLAVE_POWERUP_INIT, .ERROR_SLAVE_POWERRESTORE_INIT,
   .ERROR_COMMUNICATION]

/-- `LEDColor` enum of `goio_wrapper_server32.py`. -/
inductive LEDColor
  | BLACK
  | RED
  | GREEN
  | RED_GREEN
deriving DecidableEq, Repr

def LEDColor.val : LEDColor → Nat
  | .BLACK => 0xC0
  | .RED => 0x40
  | .GREEN => 0x80
  | .RED_GREEN => 0

def LEDColor.fromVal : Nat → Option LEDColor
  | 0xC0 => some .BLACK
  | 0x40 => some .RED
  | 0x80 => some .GREEN
  | 0 => some .RED_GREEN
  | _ => none

def LEDColor.all : List LEDColor := [.BLACK, .RED, .GREEN, .RED_GREEN]

def LEDColor.members : List (String × LEDColor) :=
  [("BLACK", .BLACK), ("RED", .RED), ("GREEN", .GREEN), ("RED_GREEN", .RED_GREEN)]

/-- `LEDBrightness` enum of `goio_wrapper_server32.py` (three members; the
in-process `goio_wrapper.py` copy lacks `OrangeLedBrightness`). -/
inductive LEDBrightness
  | BRIGHTNESS_MIN
  | BRIGHTNESS_MAX
  | OrangeLedBrightness
deriving DecidableEq, Repr

def LEDBrightness.val : LEDBrightness → Nat
  | .BRIGHTNESS_MIN => 0
  | .BRIGHTNESS_MAX => 0x10
  | .OrangeLedBrightness => 4

def LEDBrightness.fromVal : Nat → Option LEDBrightness
  | 0 => some .BRIGHTNESS_MIN
  | 0x10 => some .BRIGHTNESS_MAX
  | 4 => some .OrangeLedBrightness
  | _ => none

def LEDBrightness.all : List LEDBrightness :=
  [.BRIGHTNESS_MIN, .BRIGHTNESS_MAX, .OrangeLedBrightness]

def LEDBrightness.members : List (String × LEDBrightness) :=
  [("BRIGHTNESS_MIN", .BRIGHTNESS_MIN), ("BRIGHTNESS_MAX", .BRIGHTNESS_MAX),
   ("OrangeLedBrightness", .OrangeLedBrightness)]

/-- `ProbeType` enum of `goio_wrapper_server32.py`. -/
inductive ProbeType
  | kProbeTypeNoProbe
  | kProbeTypeAnalog5V
  | kProbeTypeAnalog10V
  | kProbeTypeHeatPulser
  | kProbeTypeAnalogOut
  | kProbeTypeMD
  | kProbeTypePhotoGate
  | kProbeTypeDigitalCount
  | kProbeTypeRotary
  | kProbeTypeDigitalOut
  | kProbeTypeLabquestAudio
  | kNumProbeTypes
deriving DecidableEq, Repr

def ProbeType.val : ProbeType → Nat
  | .kProbeTypeNoProbe => 0
  | .kProbeTypeAnalog5V => 2
  | .kProbeTypeAnalog10V => 3
  | .kProbeTypeHeatPulser => 4
  | .kProbeTypeAnalogOut => 5
  | .kProbeTypeMD => 6
  | .kProbeTypePhotoGate => 7
  | .kProbeTypeDigitalCount => 10
  | .kProbeTypeRotary => 11
  | .kProbeTypeDigitalOut => 12
  | .kProbeTypeLabquestAudio => 13
  | .kNumProbeTypes => 14

def ProbeType.fromVal : Nat → Option ProbeType
  | 0 => some .kProbeTypeNoProbe
  | 2 => some .kProbeTypeAnalog5V
  | 3 => some .kProbeTypeAnalog10V
  | 4 => some .kProbeTypeHeatPulser
  | 5 => some .kProbeTypeAnalogOut
  | 6 => some .kProbeTypeMD
  | 7 => some .kProbeTypePhotoGate
  | 10 => some .kProbeTypeDigitalCount
  | 11 => some .kProbeTypeRotary
  | 12 => some .kProbeTypeDigitalOut
  | 13 => some .kProbeTypeLabquestAudio
  | 14 => some .kNumProbeTypes
  | _ => none

def ProbeType.all : List ProbeType :=
  [.kProbeTypeNoProbe, .kProbeTypeAnalog5V, .kProbeTypeAnalog10V,
   .kProbeTypeHeatPulser, .kProbeTypeAnalogOut, .kProbeTypeMD,
   .kProbeTypePhotoGate, .kProbeTypeDigitalCount, .kProbeTypeRotary,
   .kProbeTypeDigitalOut, .kProbeTypeLabquestAudio, .kNumProbeTypes]

/-- Python `Union[E, str]` argument: either an enum member or its name. -/
inductive UnionStr (E : Type)
  | enum (e : E)
  | str (s : String)
deriving DecidableEq, Repr

/-- `enum_checker` of `goio_wrapper_server32.py`: an enum member passes
through unchanged; a string is matched case-insensitively against the
member names in declaration order; anything else raises `ValueError`. -/
def enum_checker {E : Type} (members : List (String × E)) :
    UnionStr E → Except PyError E
  | .enum e => .ok e
  | .str s =>
      match members.find? (fun p => s.toLower == p.1.toLower) with
      | some p => .ok p.2
      | none => .error (.valueError "invalid enum: not a member name")

/-- A primitive ctypes field type; only `c_uint8` occurs in the structures
of this repository. -/
inductive CType
  | u8
deriving DecidableEq, Repr

def CType.size : CType → Nat
  | .u8 => 1

def CType.align : CType → Nat
  | .u8 => 1

/-- Round `n` up to a multiple of `a` (ctypes field/struct alignment). -/
def alignUp (n a : Nat) : Nat :=
  if a = 0 then n else ((n + a - 1) / a) * a

/-- Offset just past the last field, laying fields out in order with each
field aligned to its own alignment (the ctypes native layout rule). -/
def struct_end : List (String × CType) → Nat → Nat
  | [], off => off
  | (_, t) :: rest, off => struct_end rest (alignUp off t.align + t.size)

/-- The offset of each field under the ctypes native layout rule. -/
def field_offsets : List (String × CType) → Nat → List Nat
  | [], _ => []
  | (_, t) :: rest, off =>
      let o := alignUp off t.align
      o :: field_offsets rest (o + t.size)

def max_align (fields : List (String × CType)) : Nat :=
  fields.foldl (fun a p => max a p.2.align) 1

/-- `ctypes.sizeof` of a Structure with the given `_fields_`. -/
def ctypes_sizeof (fields : List (String × CType)) : Nat :=
  alignUp (struct_end fields 0) (max_align fields)

/-- The two ctypes Structure classes of the wrappers (`_fields_` are
identical in `goio_wrapper_server32.py` and `goio_wrapper.py`). -/
inductive CStruct
  | defaultResponse
  | ledParam
deriving DecidableEq, Repr

/-- The `_fields_` lists of `DefaultResponse` and `LEDParam`. -/
def CStruct.fields : CStruct → List (String × CType)
  | .defaultResponse => [("status", .u8)]
  | .ledParam => [("color", .u8), ("brightness", .u8)]

/-- A ctypes Structure instance: its class and its byte content. -/
structure CVal where
  ty : CStruct
  bytes : List Nat
deriving DecidableEq, Repr

/-- `ctypes.sizeof` applied to a Structure instance. -/
def CVal.sizeofBytes (v : CVal) : Nat := ctypes_sizeof v.ty.fields

/-- A zero-initialised instance, as produced by `DefaultResponse()` or
`LEDParam()`. -/
def CStruct.zero (t : CStruct) : CVal :=
  ⟨t, List.replicate (ctypes_sizeof t.fields) 0⟩

/-- How the third-from-last argument (`nRespBytes` pointer) of
`GoIO_Sensor_SendCmdAndGetResponse` is passed:
`nullPtr` — a `None` (server32 with `response is None`);
`byRef n` — `byref(c_int(n))` (server32 with a response);
`byValue n` — the plain integer `n` (in-process `goio_wrapper.py`). -/
inductive RespLenArg
  | nullPtr
  | byRef (n : Nat)
  | byValue (n : Nat)
deriving DecidableEq, Repr

/-- The exact argument tuple a wrapper passes to
`GoIO_Sensor_SendCmdAndGetResponse`. -/
structure SendCmdCall where
  handle : Int
  cmd : Nat
  param : Option (List Nat)
  paramLen : Nat
  respPresent : Bool
  respLen : RespLenArg
  timeout : Nat
deriving DecidableEq, Repr

/-- One invocation of a vendor DLL entry point, with the arguments passed:
the observable trace at the foreign-function boundary. -/
inductive DllCall
  | init
  | uninit
  | getDLLVersion
  | updateListOfAvailableDevices (vendor product : Nat)
  | getNthAvailableDeviceName (bufLen vendor product : Nat) (index : Nat)
  | sensorOpen (device : String) (vendor product openAll : Nat)
  | sensorClose (handle : Int)
  | sensorClearBuffers (handle : Int)
  | getOpenDeviceName (handle : Int)
  | sendCmd (c : SendCmdCall)
  | getLastCmdResponseStatus (handle : Int)
  | getNumMeasurementsAvailable (handle : Int)
  | readRawMeasurements (handle : Int) (maxCount : Nat)
  | getLatestRawMeasurement (handle : Int)
  | convertToVoltage (handle : Int) (rawData : Int)
deriving DecidableEq, Repr

/-- Abstract interface to the vendor GoIO_DLL: one state-passing function
per entry point the wrappers invoke.  `σ` is the DLL-side state. -/
structure Lib (σ : Type) where
  initFn : σ → Int × σ
  uninitFn : σ → Int × σ
  getDLLVersionFn : σ → (Int × Nat × Nat) × σ
  updateListOfAvailableDevicesFn : Nat → Nat → σ → Int × σ
  getNthAvailableDeviceNameFn : Nat → Nat → Nat → σ → String × σ
  sensorOpenFn : String → Nat → Nat → Nat → σ → Int × σ
  sensorCloseFn : Int → σ → Int × σ
  sensorClearFn : Int → σ → Int × σ
  getOpenDeviceNameFn : Int → σ → (Int × String × Nat × Nat) × σ
  sendCmdFn : SendCmdCall → σ → (Int × List Nat) × σ
  getLastCmdResponseStatusFn : Int → σ → (Int × Nat × Nat × Nat × Nat) × σ
  getNumMeasurementsAvailableFn : Int → σ → Int × σ
  readRawMeasurementsFn : Int → Nat → σ → List Int × σ
  getLatestRawMeasurementFn : Int → σ → Int × σ
  convertToVoltageFn : Int → Int → σ → Int × σ

/-- `SensorInfo` dataclass. -/
structure SensorInfo where
  handle : Int
  name : String
  vendor : VendorID
  product : ProductID
deriving DecidableEq, Repr

/-- `SensorErrorStatus` dataclass. -/
structure SensorErrorStatus where
  last_command : SensorCommand
  last_status : SensorStatus
  last_command_with_error : SensorCommand
  last_error : SensorStatus
deriving DecidableEq, Repr


namespace GoIOWrapper32

variable {σ : Type}

/-- `GoIOWrapper32.open_library`: raises on a non-zero `GoIO_Init`. -/
def open_library (lib : Lib σ) (s : σ) : Except PyError Unit × σ × List DllCall :=
  let r := lib.initFn s
  (if r.1 ≠ 0 then .error (.goIOError "Library opening failed") else .ok (),
   r.2, [.init])

/-- `GoIOWrapper32.close_library`: raises on a non-zero `GoIO_Uninit`. -/
def close_library (lib : Lib σ) (s : σ) : Except PyError Unit × σ × List DllCall :=
  let r := lib.uninitFn s
  (if r.1 ≠ 0 then .error (.goIOError "Library closing failed") else .ok (),
   r.2, [.uninit])

/-- `GoIOWrapper32.get_version`: `major` is a `c_uint16(0)` never written by
the DLL call, so the returned string always starts with `0.`. -/
def get_version (lib : Lib σ) (s : σ) : Except PyError String × σ × List DllCall :=
  let r := lib.getDLLVersionFn s
  (if r.1.1 ≠ 0 then .error (.goIOError "Incorrect version query")
   else .ok ("0." ++ toString r.1.2.1 ++ "." ++ toString r.1.2.2),
   r.2, [.getDLLVersion])

/-- `GoIOWrapper32.get_connected_products`. -/
def get_connected_products (lib : Lib σ) (s : σ) (product : UnionStr ProductID) :
    Except PyError Int × σ × List DllCall :=
  match enum_checker ProductID.members product with
  | .error e => (.error e, s, [])
  | .ok p =>
      let r := lib.updateListOfAvailableDevicesFn VendorID.Vernier.val p.val s
      (.ok r.1, r.2, [.updateListOfAvailableDevices VendorID.Vernier.val p.val])

/-- `GoIOWrapper32.open_sensor`: the handle returned by `GoIO_Sensor_Open`
is wrapped in a `SensorInfo` without any check; the name is the decoded
content of the buffer created from `device_id`. -/
def open_sensor (lib : Lib σ) (s : σ) (device_id : String)
    (product : UnionStr ProductID) :
    Except PyError SensorInfo × σ × List DllCall :=
  match enum_checker ProductID.members product with
  | .error e => (.error e, s, [])
  | .ok p =>
      let r := lib.sensorOpenFn device_id VendorID.Vernier.val p.val 1 s
      (.ok ⟨r.1, device_id, VendorID.Vernier, p⟩, r.2,
       [.sensorOpen device_id VendorID.Vernier.val p.val 1])

/-- `GoIOWrapper32.close_sensor`: returns the DLL code, never raises. -/
def close_sensor (lib : Lib σ) (s : σ) (handle : Int) :
    Except PyError Int × σ × List DllCall :=
  let r := lib.sensorCloseFn handle s
  (.ok r.1, r.2, [.sensorClose handle])

/-- `GoIOWrapper32.clear_sensor`: returns the DLL code, never raises. -/
def clear_sensor (lib : Lib σ) (s : σ) (handle : Int) :
    Except PyError Int × σ × List DllCall :=
  let r := lib.sensorClearFn handle s
  (.ok r.1, r.2, [.sensorClearBuffers handle])

/-- `GoIOWrapper32.get_sensor_info`: raises `GoIOError` on a non-zero code,
then coerces the written vendor/product values through the enums (a
`ValueError` if the DLL wrote values outside the enums). -/
def get_sensor_info (lib : Lib σ) (s : σ) (handle : Int) :
    Except PyError SensorInfo × σ × List DllCall :=
  let r := lib.getOpenDeviceNameFn handle s
  (if r.1.1 ≠ 0 then
     .error (.goIOError ("Get Sensor Info returned with error " ++ toString r.1.1))
   else
     match VendorID.fromVal r.1.2.2.1, ProductID.fromVal r.1.2.2.2 with
     | some v, some p => .ok ⟨handle, r.1.2.1, v, p⟩
     | _, _ => .error (.valueError "not a valid VendorID or ProductID"),
   r.2, [.getOpenDeviceName handle])

/-- `GoIOWrapper32.send_command_get_response`: builds the exact
`GoIO_Sensor_SendCmdAndGetResponse` argument tuple — `c_uint8` command
byte, `byref(parameter)`/`None`, `ctypes.sizeof` of the parameter or `0`,
`byref(response)`/`None`, `byref(c_int(response_len))`/`None`, and a fixed
timeout of 1000 ms — raises `GoIOError` carrying the command name and the
code on a non-zero return, else returns the (DLL-written) response.
`mk_send_call` is the marshalling part: the exact argument tuple the
method passes to the DLL. -/
def mk_send_call (handle : Int) (cmd : SensorCommand)
    (parameter response : Option CVal) : SendCmdCall :=
  { handle := handle, cmd := cmd.val % 256,
    param := parameter.map (fun p => p.bytes),
    paramLen := match parameter with | none => 0 | some p => p.sizeofBytes,
    respPresent := response.isSome,
    respLen := match response with | none => .nullPtr | some r => .byRef r.sizeofBytes,
    timeout := 1000 }

def send_command_get_response (lib : Lib σ) (s : σ) (handle : Int)
    (command : UnionStr SensorCommand) (parameter response : Option CVal) :
    Except PyError (Option CVal) × σ × List DllCall :=
  match enum_checker SensorCommand.members command with
  | .error e => (.error e, s, [])
  | .ok cmd =>
      let call := mk_send_call handle cmd parameter response
      let r := lib.sendCmdFn call s
      (if r.1.1 ≠ 0 then
         .error (.goIOError ("Command " ++ cmd.name ++ " returned with error "
                             ++ toString r.1.1))
       else .ok (response.map fun v => { v with bytes := r.1.2 }),
       r.2, [.sendCmd call])

/-- `GoIOWrapper32.get_status`: sends `GET_STATUS` with a fresh
`DefaultResponse`, then coerces its status byte through `SensorStatus`. -/
def get_status (lib : Lib σ) (s : σ) (handle : Int) :
    Except PyError SensorStatus × σ × List DllCall :=
  let response := CStruct.zero .defaultResponse
  let r := send_command_get_response lib s handle (.enum .GET_STATUS) none (some response)
  (match r.1 with
   | .error e => .error e
   | .ok v =>
      match SensorStatus.fromVal (((v.map (fun w => w.bytes)).getD []).headD 0) with
      | some st => .ok st
      | none => .error (.valueError "not a valid SensorStatus"),
   r.2)

/-- `GoIOWrapper32.get_response_status`: raises `GoIOError` on a non-zero
code, then coerces the four written bytes through the enums. -/
def get_response_status (lib : Lib σ) (s : σ) (handle : Int) :
    Except PyError SensorErrorStatus × σ × List DllCall :=
  let r := lib.getLastCmdResponseStatusFn handle s
  (if r.1.1 ≠ 0 then .error (.goIOError "Status could not be fetched")
   else
     match SensorCommand.fromVal r.1.2.1, SensorStatus.fromVal r.1.2.2.1,
           SensorCommand.fromVal r.1.2.2.2.1, SensorStatus.fromVal r.1.2.2.2.2 with
     | some a, some b, some c, some d => .ok ⟨a, b, c, d⟩
     | _, _, _, _ => .error (.valueError "not a valid SensorCommand or SensorStatus"),
   r.2, [.getLastCmdResponseStatus handle])

/-- `GoIOWrapper32.get_led_status`: sends `GET_LED_STATE` with a fresh
`LEDParam` response. -/
def get_led_status (lib : Lib σ) (s : σ) (handle : Int) :
    Except PyError (Option CVal) × σ × List DllCall :=
  let response := CStruct.zero .ledParam
  send_command_get_response lib s handle (.enum .GET_LED_STATE) none (some response)

/-- `GoIOWrapper32.set_led`: checks the enums, then sends `SET_LED_STATE`
with a `LEDParam(color.value, brightness.value)` parameter and a fresh
`LEDParam` response. -/
def set_led (lib : Lib σ) (s : σ) (handle : Int) (color : UnionStr LEDColor)
    (brightness : UnionStr LEDBrightness) :
    Except PyError (Option CVal) × σ × List DllCall :=
  match enum_checker LEDColor.members color with
  | .error e => (.error e, s, [])
  | .ok c =>
      match enum_checker LEDBrightness.members brightness with
      | .error e => (.error e, s, [])
      | .ok b =>
          let led_param : CVal := ⟨.ledParam, [c.val, b.val]⟩
          let led_response := CStruct.zero .ledParam
          send_command_get_response lib s handle (.enum .SET_LED_STATE)
            (some led_param) (some led_response)

/-- `GoIOWrapper32.start`: sends `START_MEASUREMENTS`, no buffers. -/
def start (lib : Lib σ) (s : σ) (handle : Int) :
    Except PyError Unit × σ × List DllCall :=
  let r := send_command_get_response lib s handle (.enum .START_MEASUREMENTS) none none
  (match r.1 with
   | .error e => .error e
   | .ok _ => .ok (), r.2)

/-- `GoIOWrapper32.stop`: sends `STOP_MEASUREMENTS`, no buffers. -/
def stop (lib : Lib σ) (s : σ) (handle : Int) :
    Except PyError Unit × σ × List DllCall :=
  let r := send_command_get_response lib s handle (.enum .STOP_MEASUREMENTS) none none
  (match r.1 with
   | .error e => .error e
   | .ok _ => .ok (), r.2)

/-- `GoIOWrapper32.get_n_available_measurements`: returns the DLL value
unchecked. -/
def get_n_available_measurements (lib : Lib σ) (s : σ) (handle : Int) :
    Except PyError Int × σ × List DllCall :=
  let r := lib.getNumMeasurementsAvailableFn handle s
  (.ok r.1, r.2, [.getNumMeasurementsAvailable handle])

/-- `GoIOWrapper32.read_raw`: allocates a zero-filled `(c_int * max_count)`
buffer where `max_count` is what `get_n_available_measurements` just
reported, lets the DLL write into it, and returns `list(data)` — always of
length `max_count`, zero-padded if the DLL wrote fewer (a negative
`max_count` would make the ctypes array constructor raise `ValueError`). -/
def read_raw (lib : Lib σ) (s : σ) (handle : Int) :
    Except PyError (List Int) × σ × List DllCall :=
  let g := get_n_available_measurements lib s handle
  match g.1 with
  | .error e => (.error e, g.2.1, g.2.2)
  | .ok max_count =>
      if max_count < 0 then
        (.error (.valueError "array length must be >= 0"), g.2.1, g.2.2)
      else
        let mc := max_count.toNat
        let w := lib.readRawMeasurementsFn handle mc g.2.1
        (.ok (w.1.take mc ++ List.replicate (mc - w.1.length) 0), w.2,
         g.2.2 ++ [.readRawMeasurements handle mc])

/-- `GoIOWrapper32.read_raw_latest`: returns the DLL value unchecked. -/
def read_raw_latest (lib : Lib σ) (s : σ) (handle : Int) :
    Except PyError Int × σ × List DllCall :=
  let r := lib.getLatestRawMeasurementFn handle s
  (.ok r.1, r.2, [.getLatestRawMeasurement handle])

/-- `GoIOWrapper32.raw_to_voltage`: passes handle and raw value to
`GoIO_Sensor_ConvertToVoltage` (the C float result is modelled as an
integer-coded value; only the argument flow is claimed about). -/
def raw_to_voltage (lib : Lib σ) (s : σ) (handle : Int) (raw_data : Int) :
    Except PyError Int × σ × List DllCall :=
  let r := lib.convertToVoltageFn handle raw_data s
  (.ok r.1, r.2, [.convertToVoltage handle raw_data])

end GoIOWrapper32

namespace GoIOWrapper

variable {σ : Type}

/-- `GoIOWrapper.send_command` of the in-process `goio_wrapper.py`
(this file re-declares the same enums and structures; its `SensorCommand`
lacks the `NONE` member but agrees with the server32 enum on every member
it defines, so the server32 types are reused here).

`ptrSize` is the width `ctypes.sizeof` reports for a `POINTER(c_int)`
instance on the running interpreter (4 on 32-bit, 8 on 64-bit Python).

Faithful quirks of the source:
  * `param_pointer` is a null `POINTER(c_int)()` when `parameter is None`,
    else `pointer(parameter)`; `parameter_len = ctypes.sizeof(param_pointer)`
    is the size of the pointer object itself, not of the structure;
  * `response_len = ctypes.sizeof(response)` raises `TypeError` when
    `response is None`, before any DLL call;
  * `response_len` is passed to the DLL by value, not via
    `byref(c_int(...))`;
  * nothing is returned on success.
`mk_send_call` is the marshalling part: the exact argument tuple the
method passes to the DLL once past the `response is None` `TypeError`. -/
def mk_send_call (ptrSize : Nat) (handle : Int) (cmd : SensorCommand)
    (parameter : Option CVal) (response : CVal) : SendCmdCall :=
  { handle := handle, cmd := cmd.val % 256,
    param := parameter.map (fun p => p.bytes),
    paramLen := ptrSize,
    respPresent := true,
    respLen := .byValue response.sizeofBytes,
    timeout := 1000 }

def send_command (ptrSize : Nat) (lib : Lib σ) (s : σ) (handle : Int)
    (command : UnionStr SensorCommand) (parameter response : Option CVal) :
    Except PyError Unit × σ × List DllCall :=
  match enum_checker SensorCommand.members command with
  | .error e => (.error e, s, [])
  | .ok cmd =>
      match response with
      | none => (.error (.typeError "this type has no size"), s, [])
      | some v =>
          let call := mk_send_call ptrSize handle cmd parameter v
          let r := lib.sendCmdFn call s
          (if r.1.1 ≠ 0 then
             .error (.goIOError ("Command " ++ cmd.name ++ " returned with error "
                                 ++ toString r.1.1))
           else .ok (), r.2, [.sendCmd call])

end GoIOWrapper

/-- A positional argument crossing the 32/64-bit process bridge. -/
inductive PyObj
  | int (i : Int)
  | str (s : String)
deriving DecidableEq, Repr

/-- A cross-process request as built by `Client64.request32(name, *args)`:
the method name and the positional arguments, exactly as supplied. -/
structure Request where
  method : String
  args : List PyObj
deriving DecidableEq, Repr

namespace GoIOWrapper64

variable {σ : Type}

/-- Request sent by `GoIOWrapper64.close_sensor`. -/
def close_sensor_request (handle : Int) : Request :=
  ⟨"close_sensor", [.int handle]⟩

/-- Request sent by `GoIOWrapper64.read_raw_latest`. -/
def read_raw_latest_request (handle : Int) : Request :=
  ⟨"read_raw_latest", [.int handle]⟩

/-- Request sent by `GoIOWrapper64.volt_to_calibrated`:
`self.request32('volt_to_calibrated', handle, volt_data)` (the float
payload is modelled as an integer-coded value). -/
def volt_to_calibrated_request (handle : Int) (volt_data : Int) : Request :=
  ⟨"volt_to_calibrated", [.int handle, .int volt_data]⟩

/-- Request sent by `GoIOWrapper64.raw_to_voltage`:
`self.request32('raw_to_voltage', handle)` — the `raw_data` argument the
caller supplied does not appear in the request. -/
def raw_to_voltage_request (handle : Int) (raw_data : Int) : Request :=
  ⟨"raw_to_voltage", [.int handle]⟩

/-- Server-side dispatch of a `raw_to_voltage` request: the Server32 host
applies `GoIOWrapper32.raw_to_voltage(handle, raw_data)` to the request's
positional arguments; a request missing an argument fails with the Python
`TypeError` for a missing required positional argument. -/
def dispatch_raw_to_voltage (lib : Lib σ) (s : σ) (r : Request) :
    Except PyError Int × σ × List DllCall :=
  match r.args with
  | [.int handle, .int raw_data] => GoIOWrapper32.raw_to_voltage lib s handle raw_data
  | _ => (.error (.typeError
           "raw_to_voltage() missing 1 required positional argument: raw_data"),
          s, [])

/-- `GoIOWrapper64.raw_to_voltage`: builds its request and has the 32-bit
side dispatch it. -/
def raw_to_voltage (lib : Lib σ) (s : σ) (handle : Int) (raw_data : Int) :
    Except PyError Int × σ × List DllCall :=
  dispatch_raw_to_voltage lib s (raw_to_voltage_request handle raw_data)

end GoIOWrapper64

/-- Modelled from the spec: the state of the vendor GoIO_DLL, which is an
external binary (out of scope of the repository).  The spec describes it
through the wrapper contract: a list of currently enumerable devices per
vendor/product pair, sensor handles that are "valid only between `open`
and `close`", and "an internal vendor-side measurement queue" per open
handle that `read_raw`/`read_raw_latest` drain or peek-and-clear. -/
structure DllState where
  inited : Bool
  available : Nat → Nat → List String
  sensors : List (Int × String × Nat × Nat)
  nextHandle : Int
  queues : Int → List Int

/-- A handle currently in its open/close window. -/
def handleOpen (s : DllState) (h : Int) : Bool :=
  s.sensors.any (fun t => t.1 == h)

/-- Modelled from the spec: the vendor GoIO_DLL entry points (the DLL
binary is not part of the repository).  Every operation on a handle
outside its open/close window fails with a non-zero code (or reports an
empty queue) and leaves the state unchanged; `GoIO_Sensor_Open` returns a
failure sentinel (−1) when the device name is not currently enumerable
for the vendor/product pair; measurement reads drain the per-handle
queue. -/
def goioDll : Lib DllState where
  initFn s := (0, { s with inited := true })
  uninitFn s := (0, { s with inited := false })
  getDLLVersionFn s := ((0, 2, 53), s)
  updateListOfAvailableDevicesFn v p s := (((s.available v p).length : Int), s)
  getNthAvailableDeviceNameFn v p i s := ((s.available v p).getD i "", s)
  sensorOpenFn device v p _openAll s :=
    if device ∈ s.available v p then
      (s.nextHandle,
       { s with sensors := (s.nextHandle, device, v, p) :: s.sensors,
                nextHandle := s.nextHandle + 1 })
    else (-1, s)
  sensorCloseFn h s :=
    if handleOpen s h then
      (0, { s with sensors := s.sensors.filter (fun t => t.1 != h),
                   queues := fun k => if k = h then [] else s.queues k })
    else (-1, s)
  sensorClearFn h s :=
    if handleOpen s h then
      (0, { s with queues := fun k => if k = h then [] else s.queues k })
    else (-1, s)
  getOpenDeviceNameFn h s :=
    match s.sensors.find? (fun t => t.1 == h) with
    | some t => ((0, t.2.1, t.2.2.1, t.2.2.2), s)
    | none => ((-1, "", 0, 0), s)
  sendCmdFn call s :=
    if handleOpen s call.handle then
      ((0, match call.respLen with
           | .nullPtr => []
           | .byRef n => List.replicate n 0
           | .byValue n => List.replicate n 0), s)
    else ((-1, []), s)
  getLastCmdResponseStatusFn h s :=
    if handleOpen s h then ((0, 0, 0, 0, 0), s) else ((-1, 0, 0, 0, 0), s)
  getNumMeasurementsAvailableFn h s :=
    if handleOpen s h then (((s.queues h).length : Int), s) else (0, s)
  readRawMeasurementsFn h maxCount s :=
    if handleOpen s h then
      ((s.queues h).take maxCount,
       { s with queues := fun k => if k = h then (s.queues h).drop maxCount
                                   else s.queues k })
    else ([], s)
  getLatestRawMeasurementFn h s :=
    if handleOpen s h then
      ((s.queues h).getLastD 0,
       { s with queues := fun k => if k = h then [] else s.queues k })
    else (0, s)
  convertToVoltageFn h raw s :=
    if handleOpen s h then (raw, s) else (0, s)

/-- A fresh DLL state: library not initialised, no device enumerable, no
open handle, empty queues. -/
def initState : DllState :=
  { inited := false, available := fun _ _ => [], sensors := [],
    nextHandle := 1, queues := fun _ => [] }

/-- A state with one open GoLink sensor (handle 1, three queued
measurements) — the concrete instance used by witnesses. -/
def sampleState : DllState :=
  { inited := true, available := fun _ _ => [],
    sensors := [(1, "GoLink 0", 0x08F7, 0x0003)], nextHandle := 2,
    queues := fun k => if k = 1 then [5, 6, 7] else [] }

/-- A stateless DLL stub whose every entry point fails with −1: used by
witnesses to exercise the error branches of the wrappers. -/
def failLib : Lib Unit where
  initFn s := (-1, s)
  uninitFn s := (-1, s)
  getDLLVersionFn s := ((-1, 0, 0), s)
  updateListOfAvailableDevicesFn _ _ s := (0, s)
  getNthAvailableDeviceNameFn _ _ _ s := ("", s)
  sensorOpenFn _ _ _ _ s := (-1, s)
  sensorCloseFn _ s := (-1, s)
  sensorClearFn _ s := (-1, s)
  getOpenDeviceNameFn _ s := ((-1, "", 0, 0), s)
  sendCmdFn _ s := ((-1, []), s)
  getLastCmdResponseStatusFn _ s := ((-1, 0, 0, 0, 0), s)
  getNumMeasurementsAvailableFn _ s := (0, s)
  readRawMeasurementsFn _ _ s := ([], s)
  getLatestRawMeasurementFn _ s := (0, s)
  convertToVoltageFn _ _ s := (0, s)

/-- The timeouts of the `GoIO_Sensor_SendCmdAndGetResponse` invocations in
a DLL-call trace. -/
def timeoutsOf (tr : List DllCall) : List Nat :=
  tr.filterMap (fun c => match c with | .sendCmd sc => some sc.timeout | _ => none)

/-- C5: for every enum defined in the wrapper (ProductID, SensorCommand,
SensorStatus, LEDColor, LEDBrightness, ProbeType), the member values are
pairwise distinct (the `all` list enumerates every member and its value
list has no duplicate), and converting a member's value back through the
enum (Python `Enum(value)`) returns that member, so name → code → name is
a round-trip. -/
theorem enum_roundtrip_unique :
    ((ProductID.all.map ProductID.val).Nodup
      ∧ (∀ c : ProductID, c ∈ ProductID.all)
      ∧ ∀ c : ProductID, ProductID.fromVal c.val = some c)
    ∧ ((SensorCommand.all.map SensorCommand.val).Nodup
      ∧ (∀ c : SensorCommand, c ∈ SensorCommand.all)
      ∧ ∀ c : SensorCommand, SensorCommand.fromVal c.val = some c)
    ∧ ((SensorStatus.all.map SensorStatus.val).Nodup
      ∧ (∀ c : SensorStatus, c ∈ SensorStatus.all)
      ∧ ∀ c : SensorStatus, SensorStatus.fromVal c.val = some c)
    ∧ ((LEDColor.all.map LEDColor.val).Nodup
      ∧ (∀ c : LEDColor, c ∈ LEDColor.all)
      ∧ ∀ c : LEDColor, LEDColor.fromVal c.val = some c)
    ∧ ((LEDBrightness.all.map LEDBrightness.val).Nodup
      ∧ (∀ c : LEDBrightness, c ∈ LEDBrightness.all)
      ∧ ∀ c : LEDBrightness, LEDBrightness.fromVal c.val = some c)
    ∧ ((ProbeType.all.map ProbeType.val).Nodup
      ∧ (∀ c : ProbeType, c ∈ ProbeType.all)
      ∧ ∀ c : ProbeType, ProbeType.fromVal c.val = some c) := by
  refine ⟨⟨by decide, fun c => by cases c <;> decide, fun c => by cases c <;> rfl⟩,
          ⟨by decide, fun c => by cases c <;> decide, fun c => by cases c <;> rfl⟩,
          ⟨by decide, fun c => by cases c <;> decide, fun c => by cases c <;> rfl⟩,
          ⟨by decide, fun c => by cases c <;> decide, fun c => by cases c <;> rfl⟩,
          ⟨by decide, fun c => by cases c <;> decide, fun c => by cases c <;> rfl⟩,
          ⟨by decide, fun c => by cases c <;> decide, fun c => by cases c <;> rfl⟩⟩

/-- C6: under the ctypes native layout rule, `LEDParam` is exactly 2 bytes
— an unsigned byte `color` at offset 0 followed by an unsigned byte
`brightness` at offset 1 — and `DefaultResponse` is exactly 1 byte — a
single unsigned `status` byte at offset 0 (the `_fields_` are identical in
`goio_wrapper_server32.py` and `goio_wrapper.py`). -/
theorem struct_sizes_match_wire_layout :
    ctypes_sizeof (CStruct.fields .ledParam) = 2
    ∧ ctypes_sizeof (CStruct.fields .defaultResponse) = 1
    ∧ field_offsets (CStruct.fields .ledParam) 0 = [0, 1]
    ∧ field_offsets (CStruct.fields .defaultResponse) 0 = [0]
    ∧ (CStruct.fields .ledParam).map (fun p => p.2) = [.u8, .u8]
    ∧ (CStruct.fields .defaultResponse).map (fun p => p.2) = [.u8]
    ∧ (CStruct.fields .ledParam).map (fun p => p.1) = ["color", "brightness"]
    ∧ (CStruct.fields .defaultResponse).map (fun p => p.1) = ["status"] :=
  ⟨rfl, rfl, rfl, rfl, rfl, rfl, rfl, rfl⟩

/-- C7: every command exchange issued through
`GoIO_Sensor_SendCmdAndGetResponse` passes 1000 (milliseconds) as the
final argument — in the 32-bit server's `send_command_get_response` and
in the in-process wrapper's `send_command`, for every argument choice and
every DLL behaviour; any trace of either function contains either exactly
one exchange, with timeout 1000, or none (enum-coercion failure, or the
in-process `response is None` `TypeError`, stop before the DLL call). -/
theorem send_timeout_fixed_1000 {σ : Type} (lib : Lib σ) (s : σ) (handle : Int)
    (cmd : SensorCommand) (command : UnionStr SensorCommand)
    (parameter response : Option CVal) (v : CVal) (ptrSize : Nat) :
    (GoIOWrapper32.mk_send_call handle cmd parameter response).timeout = 1000
    ∧ (GoIOWrapper.mk_send_call ptrSize handle cmd parameter v).timeout = 1000
    ∧ (GoIOWrapper32.send_command_get_response lib s handle (.enum cmd) parameter response).2.2
        = [.sendCmd (GoIOWrapper32.mk_send_call handle cmd parameter response)]
    ∧ (GoIOWrapper.send_command ptrSize lib s handle (.enum cmd) parameter (some v)).2.2
        = [.sendCmd (GoIOWrapper.mk_send_call ptrSize handle cmd parameter v)]
    ∧ (timeoutsOf (GoIOWrapper32.send_command_get_response lib s handle command parameter response).2.2 = [1000]
        ∨ timeoutsOf (GoIOWrapper32.send_command_get_response lib s handle command parameter response).2.2 = [])
    ∧ (timeoutsOf (GoIOWrapper.send_command ptrSize lib s handle command parameter response).2.2 = [1000]
        ∨ timeoutsOf (GoIOWrapper.send_command ptrSize lib s handle command parameter response).2.2 = []) := by
  refine ⟨rfl, rfl, rfl, rfl, ?_, ?_⟩
  · cases h : enum_checker SensorCommand.members command with
    | error e => right; simp [GoIOWrapper32.send_command_get_response, h, timeoutsOf]
    | ok c =>
        left
        simp [GoIOWrapper32.send_command_get_response, h, timeoutsOf,
              GoIOWrapper32.mk_send_call]
  · cases h : enum_checker SensorCommand.members command with
    | error e => right; simp [GoIOWrapper.send_command, h, timeoutsOf]
    | ok c =>
        cases response with
        | none => right; simp [GoIOWrapper.send_command, h, timeoutsOf]
        | some v2 =>
            left
            simp [GoIOWrapper.send_command, h, timeoutsOf, GoIOWrapper.mk_send_call]

/-- C1 counterexample: on the never-opened handle 5 the modelled
`GoIO_Sensor_Close` and `GoIO_Sensor_ClearIO` entry points return the
non-zero code −1, yet `close_sensor` and `clear_sensor` raise nothing:
they return the code as a normal value, contradicting the claim that
every listed operation raises `GoIOError` on a non-zero DLL code. -/
theorem close_clear_nonzero_no_raise :
    (goioDll.sensorCloseFn 5 initState).1 = -1
    ∧ (GoIOWrapper32.close_sensor goioDll initState 5).1 = Except.ok (-1)
    ∧ (goioDll.sensorClearFn 5 initState).1 = -1
    ∧ (GoIOWrapper32.clear_sensor goioDll initState 5).1 = Except.ok (-1) :=
  ⟨rfl, rfl, rfl, rfl⟩

/-- C1 (amended): for every DLL behaviour, `open_library`, `close_library`,
`get_version`, `send_command_get_response`, `get_sensor_info` and
`get_response_status` raise a `GoIOError` — the single error kind —
exactly when the underlying DLL entry point returns a non-zero code (with
the command-exchange message carrying the attempted command's name and
the returned code), and raise nothing when it returns zero (and, for the
two queries that coerce DLL-written bytes through enums, those bytes are
enum-valid); `close_sensor` and `clear_sensor` never raise: they return
the DLL's code, non-zero included, to the caller. -/
theorem dll_error_surfacing {σ : Type} (lib : Lib σ) (s : σ) (handle : Int)
    (cmd : SensorCommand) (parameter response : Option CVal) :
    ((lib.initFn s).1 ≠ 0 →
      (GoIOWrapper32.open_library lib s).1
        = .error (.goIOError "Library opening failed"))
    ∧ ((lib.initFn s).1 = 0 → (GoIOWrapper32.open_library lib s).1 = .ok ())
    ∧ ((lib.uninitFn s).1 ≠ 0 →
      (GoIOWrapper32.close_library lib s).1
        = .error (.goIOError "Library closing failed"))
    ∧ ((lib.uninitFn s).1 = 0 → (GoIOWrapper32.close_library lib s).1 = .ok ())
    ∧ ((lib.getDLLVersionFn s).1.1 ≠ 0 →
      (GoIOWrapper32.get_version lib s).1
        = .error (.goIOError "Incorrect version query"))
    ∧ ((lib.getDLLVersionFn s).1.1 = 0 →
      ∃ v, (GoIOWrapper32.get_version lib s).1 = .ok v)
    ∧ ((lib.sendCmdFn (GoIOWrapper32.mk_send_call handle cmd parameter response) s).1.1 ≠ 0 →
      (GoIOWrapper32.send_command_get_response lib s handle (.enum cmd) parameter response).1
        = .error (.goIOError ("Command " ++ cmd.name ++ " returned with error "
            ++ toString (lib.sendCmdFn (GoIOWrapper32.mk_send_call handle cmd parameter response) s).1.1)))
    ∧ ((lib.sendCmdFn (GoIOWrapper32.mk_send_call handle cmd parameter response) s).1.1 = 0 →
      ∃ v, (GoIOWrapper32.send_command_get_response lib s handle (.enum cmd) parameter response).1
        = .ok v)
    ∧ ((lib.getOpenDeviceNameFn handle s).1.1 ≠ 0 →
      (GoIOWrapper32.get_sensor_info lib s handle).1
        = .error (.goIOError ("Get Sensor Info returned with error "
            ++ toString (lib.getOpenDeviceNameFn handle s).1.1)))
    ∧ ((lib.getOpenDeviceNameFn handle s).1.1 = 0 →
      (VendorID.fromVal (lib.getOpenDeviceNameFn handle s).1.2.2.1).isSome = true →
      (ProductID.fromVal (lib.getOpenDeviceNameFn handle s).1.2.2.2).isSome = true →
      ∃ info, (GoIOWrapper32.get_sensor_info lib s handle).1 = .ok info)
    ∧ ((lib.getLastCmdResponseStatusFn handle s).1.1 ≠ 0 →
      (GoIOWrapper32.get_response_status lib s handle).1
        = .error (.goIOError "Status could not be fetched"))
    ∧ ((lib.getLastCmdResponseStatusFn handle s).1.1 = 0 →
      (SensorCommand.fromVal (lib.getLastCmdResponseStatusFn handle s).1.2.1).isSome = true →
      (SensorStatus.fromVal (lib.getLastCmdResponseStatusFn handle s).1.2.2.1).isSome = true →
      (SensorCommand.fromVal (lib.getLastCmdResponseStatusFn handle s).1.2.2.2.1).isSome = true →
      (SensorStatus.fromVal (lib.getLastCmdResponseStatusFn handle s).1.2.2.2.2).isSome = true →
      ∃ est, (GoIOWrapper32.get_response_status lib s handle).1 = .ok est)
    ∧ ((GoIOWrapper32.close_sensor lib s handle).1 = .ok (lib.sensorCloseFn handle s).1)
    ∧ ((GoIOWrapper32.clear_sensor lib s handle).1 = .ok (lib.sensorClearFn handle s).1) := by
  refine ⟨?_, ?_, ?_, ?_, ?_, ?_, ?_, ?_, ?_, ?_, ?_, ?_, rfl, rfl⟩
  · intro h; simp [GoIOWrapper32.open_library, h]
  · intro h; simp [GoIOWrapper32.open_library, h]
  · intro h; simp [GoIOWrapper32.close_library, h]
  · intro h; simp [GoIOWrapper32.close_library, h]
  · intro h; simp [GoIOWrapper32.get_version, h]
  · intro h
    refine ⟨"0." ++ toString (lib.getDLLVersionFn s).1.2.1 ++ "."
            ++ toString (lib.getDLLVersionFn s).1.2.2, ?_⟩
    simp [GoIOWrapper32.get_version, h]
  · intro h; simp [GoIOWrapper32.send_command_get_response, enum_checker, h]
  · intro h
    refine ⟨response.map (fun v =>
      { v with bytes := (lib.sendCmdFn (GoIOWrapper32.mk_send_call handle cmd parameter response) s).1.2 }), ?_⟩
    simp [GoIOWrapper32.send_command_get_response, enum_checker, h]
  · intro h; simp [GoIOWrapper32.get_sensor_info, h]
  · intro h hv hp
    rw [Option.isSome_iff_exists] at hv hp
    obtain ⟨v, hv⟩ := hv
    obtain ⟨p, hp⟩ := hp
    refine ⟨⟨handle, (lib.getOpenDeviceNameFn handle s).1.2.1, v, p⟩, ?_⟩
    simp [GoIOWrapper32.get_sensor_info, h, hv, hp]
  · intro h; simp [GoIOWrapper32.get_response_status, h]
  · intro h h1 h2 h3 h4
    rw [Option.isSome_iff_exists] at h1 h2 h3 h4
    obtain ⟨a, h1⟩ := h1
    obtain ⟨b, h2⟩ := h2
    obtain ⟨c, h3⟩ := h3
    obtain ⟨d, h4⟩ := h4
    refine ⟨⟨a, b, c, d⟩, ?_⟩
    simp [GoIOWrapper32.get_response_status, h, h1, h2, h3, h4]

/-- C1 witness: the amended error-surfacing theorem evaluated on concrete
inputs — the all-failing DLL stub for the non-zero branches, and the
modelled DLL with open handle 1 for the zero branches. -/
theorem dll_error_surfacing_witness :
    ((GoIOWrapper32.open_library failLib ()).1
        = .error (.goIOError "Library opening failed"))
    ∧ ((GoIOWrapper32.open_library goioDll sampleState).1 = .ok ())
    ∧ ((GoIOWrapper32.close_library failLib ()).1
        = .error (.goIOError "Library closing failed"))
    ∧ ((GoIOWrapper32.close_library goioDll sampleState).1 = .ok ())
    ∧ ((GoIOWrapper32.get_version failLib ()).1
        = .error (.goIOError "Incorrect version query"))
    ∧ (∃ v, (GoIOWrapper32.get_version goioDll sampleState).1 = .ok v)
    ∧ ((GoIOWrapper32.send_command_get_response failLib () 5 (.enum .GET_STATUS) none none).1
        = .error (.goIOError ("Command " ++ SensorCommand.name .GET_STATUS
            ++ " returned with error "
            ++ toString (failLib.sendCmdFn (GoIOWrapper32.mk_send_call 5 .GET_STATUS none none) ()).1.1)))
    ∧ (∃ v, (GoIOWrapper32.send_command_get_response goioDll sampleState 1 (.enum .GET_STATUS) none none).1
        = .ok v)
    ∧ ((GoIOWrapper32.get_sensor_info failLib () 5).1
        = .error (.goIOError ("Get Sensor Info returned with error "
            ++ toString (failLib.getOpenDeviceNameFn 5 ()).1.1)))
    ∧ (∃ info, (GoIOWrapper32.get_sensor_info goioDll sampleState 1).1 = .ok info)
    ∧ ((GoIOWrapper32.get_response_status failLib () 5).1
        = .error (.goIOError "Status could not be fetched"))
    ∧ (∃ est, (GoIOWrapper32.get_response_status goioDll sampleState 1).1 = .ok est)
    ∧ ((GoIOWrapper32.close_sensor failLib () 5).1 = .ok (failLib.sensorCloseFn 5 ()).1)
    ∧ ((GoIOWrapper32.clear_sensor failLib () 5).1 = .ok (failLib.sensorClearFn 5 ()).1) := by
  obtain ⟨a1, a2, a3, a4, a5, a6, a7, a8, a9, a10, a11, a12, a13, a14⟩ :=
    dll_error_surfacing failLib () 5 .GET_STATUS none none
  obtain ⟨b1, b2, b3, b4, b5, b6, b7, b8, b9, b10, b11, b12, b13, b14⟩ :=
    dll_error_surfacing goioDll sampleState 1 .GET_STATUS none none
  exact ⟨a1 (by decide), b2 rfl, a3 (by decide), b4 rfl, a5 (by decide), b6 rfl,
         a7 (by decide), b8 rfl, a9 (by decide), b10 rfl (by decide) (by decide),
         a11 (by decide), b12 rfl (by decide) (by decide) (by decide) (by decide),
         a13, a14⟩

/-- C2 counterexample: in the fresh DLL state no device is enumerable for
the GoLink product, yet `open_sensor` does not fail: it returns a
`SensorInfo` whose handle is the DLL's failure sentinel −1. -/
theorem open_sensor_unavailable_returns_ok :
    initState.available VendorID.Vernier.val ProductID.GoLink.val = []
    ∧ (GoIOWrapper32.open_sensor goioDll initState "GoLink 0" (.enum .GoLink)).1
        = .ok ⟨-1, "GoLink 0", VendorID.Vernier, .GoLink⟩ := by
  constructor
  · rfl
  · simp [GoIOWrapper32.open_sensor, enum_checker, goioDll, initState]

/-- C2 (amended): `open_sensor` never raises: for every DLL state, device
string and product it returns a `SensorInfo` carrying the raw handle
`GoIO_Sensor_Open` returned — the failure sentinel −1 when `device_id` is
not currently enumerable for the Vernier vendor id and the given product
id, the freshly assigned handle when it is — together with the device
name, the Vernier vendor id and the given product id. -/
theorem open_sensor_always_returns_info (s : DllState) (device_id : String)
    (product : ProductID) :
    (GoIOWrapper32.open_sensor goioDll s device_id (.enum product)).1
      = .ok ⟨if device_id ∈ s.available VendorID.Vernier.val product.val
             then s.nextHandle else -1,
             device_id, VendorID.Vernier, product⟩ := by
  by_cases h : device_id ∈ s.available VendorID.Vernier.val product.val
  · simp [GoIOWrapper32.open_sensor, enum_checker, goioDll, h]
  · simp [GoIOWrapper32.open_sensor, enum_checker, goioDll, h]

/-- After removing every entry with key `h`, no entry with key `h` is
found: closing removes the handle from the open window. -/
theorem handleOpen_filter_self (l : List (Int × String × Nat × Nat)) (h : Int) :
    (l.filter (fun t => t.1 != h)).any (fun t => t.1 == h) = false := by
  induction l with
  | nil => rfl
  | cons a l ih =>
      by_cases ha : a.1 = h
      · simp [List.filter_cons, ha, ih]
      · simp [List.filter_cons, ha, ih]

/-- C8: calling `close_sensor` twice on an open handle: the first close
succeeds with code 0; the second close — the handle now outside its
open/close window, the DLL reporting −1 — raises no exception, returns
the code −1, and leaves the DLL state exactly as the first close left
it. -/
theorem double_close_second_noop (s : DllState) (h : Int)
    (hOpen : handleOpen s h = true) :
    (GoIOWrapper32.close_sensor goioDll s h).1 = .ok 0
    ∧ (GoIOWrapper32.close_sensor goioDll
        ((GoIOWrapper32.close_sensor goioDll s h).2.1) h).1 = .ok (-1)
    ∧ (GoIOWrapper32.close_sensor goioDll
        ((GoIOWrapper32.close_sensor goioDll s h).2.1) h).2.1
        = (GoIOWrapper32.close_sensor goioDll s h).2.1 := by
  have hs1 : (GoIOWrapper32.close_sensor goioDll s h).2.1
      = { s with sensors := s.sensors.filter (fun t => t.1 != h),
                 queues := fun k => if k = h then [] else s.queues k } := by
    simp [GoIOWrapper32.close_sensor, goioDll, hOpen]
  have hopen2 : handleOpen
      { s with sensors := s.sensors.filter (fun t => t.1 != h),
               queues := fun k => if k = h then [] else s.queues k } h = false := by
    simp [handleOpen, handleOpen_filter_self s.sensors h]
  refine ⟨?_, ?_, ?_⟩
  · simp [GoIOWrapper32.close_sensor, goioDll, hOpen]
  · rw [hs1]; simp [GoIOWrapper32.close_sensor, goioDll, hopen2]
  · rw [hs1]; simp [GoIOWrapper32.close_sensor, goioDll, hopen2]

/-- C8 witness: the double-close theorem evaluated on the concrete state
with open handle 1. -/
theorem double_close_second_noop_witness :
    handleOpen sampleState 1 = true
    ∧ ((GoIOWrapper32.close_sensor goioDll sampleState 1).1 = .ok 0
      ∧ (GoIOWrapper32.close_sensor goioDll
          ((GoIOWrapper32.close_sensor goioDll sampleState 1).2.1) 1).1 = .ok (-1)
      ∧ (GoIOWrapper32.close_sensor goioDll
          ((GoIOWrapper32.close_sensor goioDll sampleState 1).2.1) 1).2.1
          = (GoIOWrapper32.close_sensor goioDll sampleState 1).2.1) :=
  ⟨rfl, double_close_second_noop sampleState 1 rfl⟩

/-- On a non-empty list, `getLastD` coincides with `getLast`. -/
theorem getLastD_eq_getLast (l : List Int) (d : Int) (h : l ≠ []) :
    l.getLastD d = l.getLast h := by
  cases l with
  | nil => exact absurd rfl h
  | cons a t => rfl

/-- C4: for an open handle with a non-empty vendor-side queue, the reads
drain that queue with no host-side buffering: `get_n_available_measurements`
reports the queue length `n`; `read_raw` returns exactly the `n` queued
measurements that were available at the time of the call and leaves the
queue empty, so an immediately repeated `read_raw` returns `[]`;
`read_raw_latest` returns the single last stored measurement and clears
the queue. -/
theorem read_raw_drains_queue (s : DllState) (h : Int)
    (hOpen : handleOpen s h = true) (hne : s.queues h ≠ []) :
    (GoIOWrapper32.get_n_available_measurements goioDll s h).1
      = .ok ((s.queues h).length : Int)
    ∧ (GoIOWrapper32.read_raw goioDll s h).1 = .ok (s.queues h)
    ∧ ((GoIOWrapper32.read_raw goioDll s h).2.1).queues h = []
    ∧ (GoIOWrapper32.read_raw goioDll
        ((GoIOWrapper32.read_raw goioDll s h).2.1) h).1 = .ok []
    ∧ (GoIOWrapper32.read_raw_latest goioDll s h).1
        = .ok ((s.queues h).getLast hne)
    ∧ ((GoIOWrapper32.read_raw_latest goioDll s h).2.1).queues h = [] := by
  have hnneg : ¬ (((s.queues h).length : Int) < 0) :=
    not_lt.mpr (Int.natCast_nonneg _)
  have hs1 : (GoIOWrapper32.read_raw goioDll s h).2.1
      = { s with queues := fun k => if k = h then [] else s.queues k } := by
    simp [GoIOWrapper32.read_raw, GoIOWrapper32.get_n_available_measurements,
          goioDll, hOpen, hnneg]
  have hOpen1 : handleOpen
      { s with queues := fun k => if k = h then [] else s.queues k } h = true := by
    simpa [handleOpen] using hOpen
  refine ⟨?_, ?_, ?_, ?_, ?_, ?_⟩
  · simp [GoIOWrapper32.get_n_available_measurements, goioDll, hOpen]
  · simp [GoIOWrapper32.read_raw, GoIOWrapper32.get_n_available_measurements,
          goioDll, hOpen, hnneg]
  · rw [hs1]; simp
  · rw [hs1]
    simp [GoIOWrapper32.read_raw, GoIOWrapper32.get_n_available_measurements,
          goioDll, hOpen1]
  · rw [show (GoIOWrapper32.read_raw_latest goioDll s h).1
        = .ok ((s.queues h).getLastD 0) from by
      simp [GoIOWrapper32.read_raw_latest, goioDll, hOpen]]
    rw [getLastD_eq_getLast (s.queues h) 0 hne]
  · simp [GoIOWrapper32.read_raw_latest, goioDll, hOpen]

/-- C4 witness: the drain theorem evaluated on the concrete state with
open handle 1 and queue [5, 6, 7]. -/
theorem read_raw_drains_queue_witness :
    handleOpen sampleState 1 = true
    ∧ sampleState.queues 1 ≠ []
    ∧ ((GoIOWrapper32.get_n_available_measurements goioDll sampleState 1).1
        = .ok ((sampleState.queues 1).length : Int)
      ∧ (GoIOWrapper32.read_raw goioDll sampleState 1).1 = .ok (sampleState.queues 1)
      ∧ ((GoIOWrapper32.read_raw goioDll sampleState 1).2.1).queues 1 = []
      ∧ (GoIOWrapper32.read_raw goioDll
          ((GoIOWrapper32.read_raw goioDll sampleState 1).2.1) 1).1 = .ok []
      ∧ (GoIOWrapper32.read_raw_latest goioDll sampleState 1).1
          = .ok ((sampleState.queues 1).getLast (by decide))
      ∧ ((GoIOWrapper32.read_raw_latest goioDll sampleState 1).2.1).queues 1 = []) :=
  ⟨rfl, by decide, read_raw_drains_queue sampleState 1 rfl (by decide)⟩

/-- A handle outside the open window is not found among the open
sensors. -/
theorem find_none_of_handleClosed (s : DllState) (h : Int)
    (hClosed : handleOpen s h = false) :
    s.sensors.find? (fun t => t.1 == h) = none := by
  rw [List.find?_eq_none]
  intro x hx
  exact (List.any_eq_false.mp hClosed) x hx

/-- C3: every wrapper operation taking a handle, called with a handle
outside its open/close window (in particular before any open), either
raises a `GoIOError` or is a no-op returning a normal value with the DLL
state unchanged — never a crash: `send_command_get_response`,
`get_status`, `get_sensor_info`, `start`, `stop` and `set_led` raise
`GoIOError` (the stale-handle DLL code −1) and leave the state unchanged;
`read_raw` returns `[]`, `read_raw_latest` returns 0, and `close_sensor`
and `clear_sensor` return the DLL code −1, all leaving the state
unchanged. -/
theorem closed_handle_ops_noop_or_raise (s : DllState) (h : Int)
    (parameter response : Option CVal) (cmd : SensorCommand)
    (color : LEDColor) (brightness : LEDBrightness)
    (hClosed : handleOpen s h = false) :
    ((GoIOWrapper32.send_command_get_response goioDll s h (.enum cmd) parameter response).1
        = .error (.goIOError ("Command " ++ cmd.name ++ " returned with error "
            ++ toString (-1 : Int)))
      ∧ (GoIOWrapper32.send_command_get_response goioDll s h (.enum cmd) parameter response).2.1 = s)
    ∧ ((GoIOWrapper32.get_status goioDll s h).1
        = .error (.goIOError ("Command " ++ SensorCommand.name .GET_STATUS
            ++ " returned with error " ++ toString (-1 : Int)))
      ∧ (GoIOWrapper32.get_status goioDll s h).2.1 = s)
    ∧ ((GoIOWrapper32.get_sensor_info goioDll s h).1
        = .error (.goIOError ("Get Sensor Info returned with error "
            ++ toString (-1 : Int)))
      ∧ (GoIOWrapper32.get_sensor_info goioDll s h).2.1 = s)
    ∧ ((GoIOWrapper32.start goioDll s h).1
        = .error (.goIOError ("Command " ++ SensorCommand.name .START_MEASUREMENTS
            ++ " returned with error " ++ toString (-1 : Int)))
      ∧ (GoIOWrapper32.start goioDll s h).2.1 = s)
    ∧ ((GoIOWrapper32.stop goioDll s h).1
        = .error (.goIOError ("Command " ++ SensorCommand.name .STOP_MEASUREMENTS
            ++ " returned with error " ++ toString (-1 : Int)))
      ∧ (GoIOWrapper32.stop goioDll s h).2.1 = s)
    ∧ ((GoIOWrapper32.set_led goioDll s h (.enum color) (.enum brightness)).1
        = .error (.goIOError ("Command " ++ SensorCommand.name .SET_LED_STATE
            ++ " returned with error " ++ toString (-1 : Int)))
      ∧ (GoIOWrapper32.set_led goioDll s h (.enum color) (.enum brightness)).2.1 = s)
    ∧ ((GoIOWrapper32.read_raw goioDll s h).1 = .ok []
      ∧ (GoIOWrapper32.read_raw goioDll s h).2.1 = s)
    ∧ ((GoIOWrapper32.read_raw_latest goioDll s h).1 = .ok 0
      ∧ (GoIOWrapper32.read_raw_latest goioDll s h).2.1 = s)
    ∧ ((GoIOWrapper32.close_sensor goioDll s h).1 = .ok (-1)
      ∧ (GoIOWrapper32.close_sensor goioDll s h).2.1 = s)
    ∧ ((GoIOWrapper32.clear_sensor goioDll s h).1 = .ok (-1)
      ∧ (GoIOWrapper32.clear_sensor goioDll s h).2.1 = s) := by
  refine ⟨⟨?_, ?_⟩, ⟨?_, ?_⟩, ⟨?_, ?_⟩, ⟨?_, ?_⟩, ⟨?_, ?_⟩, ⟨?_, ?_⟩,
          ⟨?_, ?_⟩, ⟨?_, ?_⟩, ⟨?_, ?_⟩, ⟨?_, ?_⟩⟩ <;>
    simp [GoIOWrapper32.send_command_get_response, GoIOWrapper32.get_status,
          GoIOWrapper32.get_sensor_info, GoIOWrapper32.start, GoIOWrapper32.stop,
          GoIOWrapper32.set_led, GoIOWrapper32.read_raw,
          GoIOWrapper32.get_n_available_measurements, GoIOWrapper32.read_raw_latest,
          GoIOWrapper32.close_sensor, GoIOWrapper32.clear_sensor,
          GoIOWrapper32.mk_send_call, enum_checker, goioDll, hClosed,
          find_none_of_handleClosed s h hClosed]

/-- C3 witness: the outside-window theorem applied before any open — fresh
DLL state, handle 7. -/
theorem closed_handle_ops_noop_or_raise_witness :
    handleOpen initState 7 = false
    ∧ (((GoIOWrapper32.send_command_get_response goioDll initState 7 (.enum .GET_STATUS) none none).1
        = .error (.goIOError ("Command " ++ SensorCommand.name .GET_STATUS
            ++ " returned with error " ++ toString (-1 : Int)))
      ∧ (GoIOWrapper32.send_command_get_response goioDll initState 7 (.enum .GET_STATUS) none none).2.1 = initState)
    ∧ ((GoIOWrapper32.get_status goioDll initState 7).1
        = .error (.goIOError ("Command " ++ SensorCommand.name .GET_STATUS
            ++ " returned with error " ++ toString (-1 : Int)))
      ∧ (GoIOWrapper32.get_status goioDll initState 7).2.1 = initState)
    ∧ ((GoIOWrapper32.get_sensor_info goioDll initState 7).1
        = .error (.goIOError ("Get Sensor Info returned with error "
            ++ toString (-1 : Int)))
      ∧ (GoIOWrapper32.get_sensor_info goioDll initState 7).2.1 = initState)
    ∧ ((GoIOWrapper32.start goioDll initState 7).1
        = .error (.goIOError ("Command " ++ SensorCommand.name .START_MEASUREMENTS
            ++ " returned with error " ++ toString (-1 : Int)))
      ∧ (GoIOWrapper32.start goioDll initState 7).2.1 = initState)
    ∧ ((GoIOWrapper32.stop goioDll initState 7).1
        = .error (.goIOError ("Command " ++ SensorCommand.name .STOP_MEASUREMENTS
            ++ " returned with error " ++ toString (-1 : Int)))
      ∧ (GoIOWrapper32.stop goioDll initState 7).2.1 = initState)
    ∧ ((GoIOWrapper32.set_led goioDll initState 7 (.enum .GREEN) (.enum .BRIGHTNESS_MAX)).1
        = .error (.goIOError ("Command " ++ SensorCommand.name .SET_LED_STATE
            ++ " returned with error " ++ toString (-1 : Int)))
      ∧ (GoIOWrapper32.set_led goioDll initState 7 (.enum .GREEN) (.enum .BRIGHTNESS_MAX)).2.1 = initState)
    ∧ ((GoIOWrapper32.read_raw goioDll initState 7).1 = .ok []
      ∧ (GoIOWrapper32.read_raw goioDll initState 7).2.1 = initState)
    ∧ ((GoIOWrapper32.read_raw_latest goioDll initState 7).1 = .ok 0
      ∧ (GoIOWrapper32.read_raw_latest goioDll initState 7).2.1 = initState)
    ∧ ((GoIOWrapper32.close_sensor goioDll initState 7).1 = .ok (-1)
      ∧ (GoIOWrapper32.close_sensor goioDll initState 7).2.1 = initState)
    ∧ ((GoIOWrapper32.clear_sensor goioDll initState 7).1 = .ok (-1)
      ∧ (GoIOWrapper32.clear_sensor goioDll initState 7).2.1 = initState)) :=
  ⟨rfl, closed_handle_ops_noop_or_raise initState 7 none none
          .GET_STATUS .GREEN .BRIGHTNESS_MAX rfl⟩

/-- C9: the two command-exchange implementations are not equivalent
pass-throughs.  At the concrete exchange `SET_LED_STATE` with a 2-byte
`LEDParam` parameter and a 1-byte `DefaultResponse` response, the 32-bit
server passes the exact struct sizes (parameter length 2, response
length 1 via `byref(c_int(...))`), while the in-process wrapper passes
the platform pointer width (4 on 32-bit, 8 on 64-bit Python) as the
parameter length — `ctypes.sizeof(param_pointer)` sizes the pointer
object, not the structure — and passes the response length by value; and
with `response=None` the server succeeds on an open handle while the
in-process wrapper raises `TypeError` before any DLL call is made. -/
theorem send_command_implementations_diverge :
    (GoIOWrapper32.mk_send_call 1 .SET_LED_STATE
        (some ⟨.ledParam, [0x80, 0x10]⟩) (some (CStruct.zero .defaultResponse))).paramLen = 2
    ∧ (GoIOWrapper32.mk_send_call 1 .SET_LED_STATE
        (some ⟨.ledParam, [0x80, 0x10]⟩) (some (CStruct.zero .defaultResponse))).respLen
        = .byRef 1
    ∧ (GoIOWrapper.mk_send_call 4 1 .SET_LED_STATE
        (some ⟨.ledParam, [0x80, 0x10]⟩) (CStruct.zero .defaultResponse)).paramLen = 4
    ∧ (GoIOWrapper.mk_send_call 8 1 .SET_LED_STATE
        (some ⟨.ledParam, [0x80, 0x10]⟩) (CStruct.zero .defaultResponse)).paramLen = 8
    ∧ (GoIOWrapper.mk_send_call 8 1 .SET_LED_STATE
        (some ⟨.ledParam, [0x80, 0x10]⟩) (CStruct.zero .defaultResponse)).respLen
        = .byValue 1
    ∧ ((GoIOWrapper.mk_send_call 4 1 .SET_LED_STATE
        (some ⟨.ledParam, [0x80, 0x10]⟩) (CStruct.zero .defaultResponse)).paramLen
        == (GoIOWrapper32.mk_send_call 1 .SET_LED_STATE
            (some ⟨.ledParam, [0x80, 0x10]⟩) (some (CStruct.zero .defaultResponse))).paramLen)
        = false
    ∧ ((GoIOWrapper.mk_send_call 8 1 .SET_LED_STATE
        (some ⟨.ledParam, [0x80, 0x10]⟩) (CStruct.zero .defaultResponse)).paramLen
        == (GoIOWrapper32.mk_send_call 1 .SET_LED_STATE
            (some ⟨.ledParam, [0x80, 0x10]⟩) (some (CStruct.zero .defaultResponse))).paramLen)
        = false
    ∧ (GoIOWrapper32.send_command_get_response goioDll sampleState 1
        (.enum .SET_LED_STATE) (some ⟨.ledParam, [0x80, 0x10]⟩) none).1 = .ok none
    ∧ (GoIOWrapper.send_command 8 goioDll sampleState 1
        (.enum .SET_LED_STATE) (some ⟨.ledParam, [0x80, 0x10]⟩) none).1
        = .error (.typeError "this type has no size")
    ∧ (GoIOWrapper.send_command 8 goioDll sampleState 1
        (.enum .SET_LED_STATE) (some ⟨.ledParam, [0x80, 0x10]⟩) none).2.2 = [] :=
  ⟨rfl, rfl, rfl, rfl, rfl, rfl, rfl, rfl, rfl, rfl⟩

/-- C10: `GoIOWrapper64.raw_to_voltage` drops its `raw_data` argument:
the request it sends carries only the handle and is identical for
`raw_data` 42 and 99, and dispatching it fails with the
missing-required-positional-argument `TypeError`; calling the 32-bit
method `GoIOWrapper32.raw_to_voltage` directly with the same arguments
passes `raw_data` through to `GoIO_Sensor_ConvertToVoltage` and its
result depends on it. -/
theorem raw_to_voltage_drops_raw_data :
    GoIOWrapper64.raw_to_voltage_request 1 42 = ⟨"raw_to_voltage", [.int 1]⟩
    ∧ GoIOWrapper64.raw_to_voltage_request 1 42
        = GoIOWrapper64.raw_to_voltage_request 1 99
    ∧ (GoIOWrapper64.raw_to_voltage goioDll sampleState 1 42).1
        = .error (.typeError
            "raw_to_voltage() missing 1 required positional argument: raw_data")
    ∧ (GoIOWrapper32.raw_to_voltage goioDll sampleState 1 42).1 = .ok 42
    ∧ (GoIOWrapper32.raw_to_voltage goioDll sampleState 1 99).1 = .ok 99
    ∧ (GoIOWrapper32.raw_to_voltage goioDll sampleState 1 42).2.2
        = [.convertToVoltage 1 42] :=
  ⟨rfl, rfl, rfl, rfl, rfl, rfl⟩
